import Mathlib

/-!
Verification of the tool-dispatch and transaction-safety layer of the
ORACLE_MCP server (src/main.ts).  The TypeScript source is shallowly
embedded: each tool branch of the CallToolRequestSchema handler becomes a
Lean function over an explicit connection/session state; the node-oracledb
driver is modelled by a small-step `execSql` semantics over an abstract
database state, with an adversarial fault oracle standing in for
driver-level failures the environment may inject.
-/

/-- JSON values, as produced by the handlers before `JSON.stringify`.
The source serializes payloads to text; we keep the structured value
(serialization is injective on the shapes produced here). -/
inductive Json : Type where
  | null : Json
  | bool (b : Bool) : Json
  | num (n : Int) : Json
  | str (s : String) : Json
  | arr (xs : List Json) : Json
  | obj (fields : List (String × Json)) : Json

/-- Driver-level (node-oracledb / ORA-xxxxx) error: `error.message` and the
optional `error.errorNum` read by the handlers. -/
structure DbError : Type where
  message : String
  errorNum : Option Int

/-- JavaScript exceptions that can cross handler boundaries: driver errors,
TypeErrors (e.g. calling `.toUpperCase()` on `undefined`), and plain
`new Error(...)` (the unknown-tool case). -/
inductive JsError : Type where
  | dbError (e : DbError) : JsError
  | typeError (msg : String) : JsError
  | jsError (msg : String) : JsError

/-- Message of a JavaScript error (`error.message`). -/
def JsError.msg : JsError → String
  | .dbError e => e.message
  | .typeError m => m
  | .jsError m => m

/-- Numeric code of a JavaScript error (`error.errorNum`): only driver
errors carry one; on other errors the property is `undefined`. -/
def JsError.num : JsError → Option Int
  | .dbError e => e.errorNum
  | .typeError _ => none
  | .jsError _ => none

/-- One entry of the `content` array of a tool response:
`{ type: "text", text: JSON.stringify(payload, null, 2) }`.
We keep the structured payload instead of its serialization. -/
structure Content : Type where
  ctype : String
  payload : Json

/-- Uniform result shape returned by every tool branch:
`{ content: [...], isError: bool }`. -/
structure Envelope : Type where
  content : List Content
  isError : Bool

/-- Success envelope with a single text payload (`isError: false`). -/
def okEnvelope (j : Json) : Envelope :=
  { content := [{ ctype := "text", payload := j }], isError := false }

/-- Error envelope with a single text payload (`isError: true`). -/
def errJsonEnvelope (j : Json) : Envelope :=
  { content := [{ ctype := "text", payload := j }], isError := true }

/-- Error payload `{ error, errorCode?, suggestion }` as built in every
catch block; `JSON.stringify` omits the `errorCode` key when the error has
no `errorNum` (the property is `undefined`). -/
def mkErrorPayload (msg : String) (code : Option Int) (sugg : String) : Json :=
  Json.obj ([("error", Json.str msg)]
    ++ (match code with
        | some n => [("errorCode", Json.num n)]
        | none => [])
    ++ [("suggestion", Json.str sugg)])

/-- Catch-block envelope `{error: e.message, errorCode: e.errorNum, suggestion}`. -/
def catchEnvelope (e : JsError) (sugg : String) : Envelope :=
  errJsonEnvelope (mkErrorPayload e.msg e.num sugg)

/-- One table visible through the data dictionary: owning schema, table
name, and its rows. -/
structure OTable : Type where
  owner : String
  name : String
  rows : List Json

/-- Abstract committed database state: the user catalog (`dba_users`,
usernames stored uppercase as Oracle does) and the table catalog
(`all_tables` plus each table's data). -/
structure Db : Type where
  users : List String
  tables : List OTable

/-- Session state of one pooled connection: the durably committed database,
the session's current (possibly uncommitted) view, and whether
`SET TRANSACTION READ ONLY` is in force. -/
structure Session : Type where
  committed : Db
  current : Db
  readOnly : Bool

/-- Semantic classification of a caller-supplied SQL string (the `sql`
argument of `query`/`execute`), which the server never parses:
a row-returning statement, a mutating statement (its effect on the
database plus the driver-reported affected-row count), or a statement the
driver rejects. -/
inductive RawSql : Type where
  | select (rows : List Json) : RawSql
  | dml (eff : Db → Db) (rowsAffected : Nat) : RawSql
  | invalid (e : DbError) : RawSql

/-- The statements the server issues, one constructor per interpolated SQL
string of src/main.ts (bind parameters and interpolated identifiers become
constructor fields); `raw` is the caller-supplied SQL of `query`/`execute`
(`none` when the argument was absent, i.e. `undefined`). -/
inductive Sql : Type where
  | setTransactionReadOnly : Sql
  | rollback : Sql
  | countUser (username : String) : Sql
  | createUser (username password : String) : Sql
  | alterUser (username tablespace tempTablespace : String) : Sql
  | grant (privilege username : String) : Sql
  | selectOwner (tableName : String) : Sql
  | selectRows (qualifier : Option String) (tableName : String) (limit : Int) : Sql
  | raw (sqlArg : Option RawSql) : Sql

/-- Environment-chosen failures: pool acquisition failure, connection-close
failure, and a per-statement driver-failure oracle (standing in for
privilege errors, invalid identifiers, network faults, ...). -/
structure Faults : Type where
  acquireFails : Option DbError
  closeFails : Option DbError
  stmtError : Sql → Option DbError

/-- Fault assignment under which every driver call succeeds. -/
def Faults.benign : Faults :=
  { acquireFails := none, closeFails := none, stmtError := fun _ => none }

/-- Record of one `connection.execute` call: the statement and the options
object passed (`autoCommit` defaults to false, `maxRows` to 0 = unlimited,
the driver defaults). -/
structure ExecCall : Type where
  sql : Sql
  autoCommit : Bool
  maxRows : Int

/-- Options argument of `connection.execute`. -/
structure ExecOpts : Type where
  autoCommit : Bool := false
  maxRows : Int := 0

/-- Result object of a successful `connection.execute`: the fetched rows
and, for DML, the `rowsAffected` count (`undefined` otherwise). -/
structure ExecOut : Type where
  rows : List Json
  rowsAffected : Option Nat

/-- State of one borrowed connection: session, the session user the pool
authenticated as (uppercase of the connect-string user, Oracle's
canonical form), the fault oracle, and the trace of issued statements. -/
structure Conn : Type where
  sess : Session
  sessionUser : String
  faults : Faults
  trace : List ExecCall

/-- Process environment of one tool call: connect-string user, committed
database at call time, and the fault assignment. -/
structure Env : Type where
  user : String
  db : Db
  faults : Faults

/-- JavaScript `String.prototype.toUpperCase()` (character-wise upper
casing), used on usernames and table names before catalog comparison or
interpolation into DDL. -/
def toUpperCase (s : String) : String :=
  String.mk (s.data.map Char.toUpper)

/-- Driver-side `maxRows` truncation: a non-positive `maxRows` means
unlimited (the driver default is 0). -/
def applyMaxRows (opts : ExecOpts) (rows : List Json) : List Json :=
  if opts.maxRows ≤ 0 then rows else rows.take opts.maxRows.toNat

/-- ROWNUM-based truncation `WHERE ROWNUM <= :limit`: ROWNUM starts at 1,
so a limit below 1 yields no rows. -/
def rownumTake (limit : Int) (rows : List Json) : List Json :=
  if limit ≤ 0 then [] else rows.take limit.toNat

/-- Number of `dba_users` rows matching a username. -/
def dbCountUser (db : Db) (u : String) : Int :=
  ((db.users.filter (fun x => x == u)).length : Int)

/-- Update the session's current (uncommitted) view. -/
def modifyCurrent (c : Conn) (f : Db → Db) : Conn :=
  { c with sess := { c.sess with current := f c.sess.current } }

/-- Commit the current view when the execute options request autoCommit. -/
def maybeCommit (c : Conn) (opts : ExecOpts) : Conn :=
  if opts.autoCommit then
    { c with sess := { c.sess with committed := c.sess.current } }
  else c

/-- ORA-01456: DML/DDL attempted inside a READ ONLY transaction. -/
def readOnlyViolation : DbError :=
  { message := "ORA-01456: may not perform insert/delete/update operation inside a READ ONLY transaction", errorNum := some 1456 }

/-- ORA-01920: user name conflicts with an existing user. -/
def userAlreadyExistsErr (u : String) : DbError :=
  { message := "ORA-01920: user name '" ++ u ++ "' conflicts with another user or role name", errorNum := some 1920 }

/-- ORA-01918: user does not exist. -/
def userMissingErr (u : String) : DbError :=
  { message := "ORA-01918: user '" ++ u ++ "' does not exist", errorNum := some 1918 }

/-- ORA-00942: table or view does not exist. -/
def tableMissingErr : DbError :=
  { message := "ORA-00942: table or view does not exist", errorNum := some 942 }

/-- NJS-005: executing with an `undefined` sql argument. -/
def undefinedSqlErr : DbError :=
  { message := "NJS-005: invalid value for parameter 1", errorNum := none }

/-- Driver semantics of one `connection.execute(sql, binds, opts)` call:
records the call in the trace, consults the fault oracle, then applies the
intrinsic semantics of the statement to the session. -/
def execSql (c : Conn) (sql : Sql) (opts : ExecOpts) : Except DbError ExecOut × Conn :=
  let c0 : Conn := { c with trace := c.trace ++ [{ sql := sql, autoCommit := opts.autoCommit, maxRows := opts.maxRows }] }
  match c0.faults.stmtError sql with
  | some e => (Except.error e, c0)
  | none =>
    match sql with
    | .setTransactionReadOnly =>
        (Except.ok { rows := [], rowsAffected := none },
         { c0 with sess := { c0.sess with readOnly := true } })
    | .rollback =>
        (Except.ok { rows := [], rowsAffected := none },
         { c0 with sess := { c0.sess with current := c0.sess.committed, readOnly := false } })
    | .countUser u =>
        (Except.ok { rows := applyMaxRows opts [Json.obj [("EXIST_COUNT", Json.num (dbCountUser c0.sess.current u))]], rowsAffected := none }, c0)
    | .createUser u _p =>
        if c0.sess.readOnly then (Except.error readOnlyViolation, c0)
        else if c0.sess.current.users.contains u then (Except.error (userAlreadyExistsErr u), c0)
        else
          (Except.ok { rows := [], rowsAffected := none },
           maybeCommit (modifyCurrent c0 (fun db => { db with users := db.users ++ [u] })) opts)
    | .alterUser u _ts _tts =>
        if c0.sess.readOnly then (Except.error readOnlyViolation, c0)
        else if c0.sess.current.users.contains u then
          (Except.ok { rows := [], rowsAffected := none }, maybeCommit c0 opts)
        else (Except.error (userMissingErr u), c0)
    | .grant _priv u =>
        if c0.sess.readOnly then (Except.error readOnlyViolation, c0)
        else if c0.sess.current.users.contains u then
          (Except.ok { rows := [], rowsAffected := none }, maybeCommit c0 opts)
        else (Except.error (userMissingErr u), c0)
    | .selectOwner t =>
        (Except.ok { rows := applyMaxRows opts ((c0.sess.current.tables.filter (fun ti => ti.name == t)).map (fun ti => Json.obj [("OWNER", Json.str ti.owner)])), rowsAffected := none }, c0)
    | .selectRows qual t lim =>
        let ownerName := qual.getD c0.sessionUser
        match c0.sess.current.tables.find? (fun ti => ti.owner == ownerName && ti.name == t) with
        | none => (Except.error tableMissingErr, c0)
        | some ti =>
            (Except.ok { rows := applyMaxRows opts (rownumTake lim ti.rows), rowsAffected := none }, c0)
    | .raw none => (Except.error undefinedSqlErr, c0)
    | .raw (some (RawSql.select rows)) =>
        (Except.ok { rows := applyMaxRows opts rows, rowsAffected := none }, c0)
    | .raw (some (RawSql.dml eff n)) =>
        if c0.sess.readOnly then (Except.error readOnlyViolation, c0)
        else (Except.ok { rows := [], rowsAffected := some n }, maybeCommit (modifyCurrent c0 eff) opts)
    | .raw (some (RawSql.invalid e)) => (Except.error e, c0)

/-- Pool-lifecycle events observable from one `withConnection` run:
acquisition, successful release, or a release failure (whose message the
source logs and swallows). -/
inductive PoolEvent : Type where
  | acquire : PoolEvent
  | closeOk : PoolEvent
  | closeFailed (msg : String) : PoolEvent

/-- Predicate picking out release attempts among pool events. -/
def PoolEvent.isClose : PoolEvent → Bool
  | .acquire => false
  | .closeOk => true
  | .closeFailed _ => true

/-- Release event produced by `connection.close()` under the given fault
assignment (a failing close is caught and logged). -/
def closeEvent (f : Faults) : PoolEvent :=
  match f.closeFails with
  | some e => PoolEvent.closeFailed e.message
  | none => PoolEvent.closeOk

/-- Fresh connection handed out by `pool.getConnection()`: session view is
the committed database, no read-only mode, empty statement trace. -/
def initConn (env : Env) : Conn :=
  { sess := { committed := env.db, current := env.db, readOnly := false },
    sessionUser := toUpperCase env.user,
    faults := env.faults,
    trace := [] }

/-- Outcome of running a callback under `withConnection` (and of a whole
tool call): the returned-or-thrown result, the pool events, the statement
trace of the borrowed connection, and the committed database after the
connection is returned (uncommitted session changes are discarded). -/
structure WcOut (α : Type) : Type where
  result : Except JsError α
  poolEvents : List PoolEvent
  trace : List ExecCall
  finalDb : Db

/-- Embedding of `withConnection` (src/main.ts lines 103-120): acquire a
connection — an acquisition failure is logged and rethrown with no
connection to release — run the callback, and in the `finally` block close
the connection exactly once, a close failure being caught and logged so it
never replaces the callback's outcome. -/
def withConnection {α : Type} (env : Env) (cb : Conn → Except JsError α × Conn) : WcOut α :=
  match env.faults.acquireFails with
  | some e =>
      { result := Except.error (JsError.dbError e), poolEvents := [], trace := [], finalDb := env.db }
  | none =>
      let r := cb (initConn env)
      { result := r.1,
        poolEvents := [PoolEvent.acquire, closeEvent env.faults],
        trace := r.2.trace,
        finalDb := r.2.sess.committed }

/-- Tool-call outcome that never touched the pool (validation TypeError
before `withConnection`, or the unknown-tool throw). -/
def noCallResult (env : Env) (e : JsError) : WcOut Envelope :=
  { result := Except.error e, poolEvents := [], trace := [], finalDb := env.db }

/-- Embedding of `handleNonQueryResult`: `{message, rowsAffected}` when the
driver reports an affected-row count, else a generic success message. -/
def handleNonQueryResult (out : ExecOut) : Json :=
  match out.rowsAffected with
  | some n =>
      Json.obj [("message", Json.str ("Operation completed successfully. Rows affected: " ++ toString n)),
                ("rowsAffected", Json.num (n : Int))]
  | none => Json.obj [("message", Json.str "Operation completed successfully")]

/-- Body of the `query` branch (lines 391-415): `SET TRANSACTION READ
ONLY`, then the caller-supplied SQL with `maxRows: 1000`; there is no
catch, so any failure propagates, but the `finally` block always issues a
`ROLLBACK` whose own failure is caught and logged. -/
def queryBody (sqlArg : Option RawSql) (c : Conn) : Except JsError Envelope × Conn :=
  let body : Except JsError Envelope × Conn :=
    match execSql c Sql.setTransactionReadOnly {} with
    | (Except.error e, c1) => (Except.error (JsError.dbError e), c1)
    | (Except.ok _, c1) =>
      match execSql c1 (Sql.raw sqlArg) { maxRows := 1000 } with
      | (Except.error e, c2) => (Except.error (JsError.dbError e), c2)
      | (Except.ok out, c2) => (Except.ok (okEnvelope (Json.arr out.rows)), c2)
  let fin := execSql body.2 Sql.rollback {}
  (body.1, fin.2)

/-- Body of the `execute` branch (lines 426-452): caller-supplied SQL with
`autoCommit: true`; every failure is caught and turned into an error
envelope with a remediation hint. -/
def executeBody (sqlArg : Option RawSql) (c : Conn) : Except JsError Envelope × Conn :=
  match execSql c (Sql.raw sqlArg) { autoCommit := true } with
  | (Except.ok out, c1) => (Except.ok (okEnvelope (handleNonQueryResult out)), c1)
  | (Except.error e, c1) =>
      (Except.ok (catchEnvelope (JsError.dbError e) "Verifique la sintaxis SQL y los permisos"), c1)

/-- Reading of `result.rows[0].EXIST_COUNT > 0` (JavaScript semantics: a
missing row or field compares as `undefined > 0`, which is false). -/
def existCountPositive (rows : List Json) : Bool :=
  match rows with
  | Json.obj (("EXIST_COUNT", Json.num n) :: _) :: _ => 0 < n
  | _ => false

/-- Reading of `checkResult.rows[0].EXIST_COUNT === 0`. -/
def existCountIsZero (rows : List Json) : Bool :=
  match rows with
  | Json.obj (("EXIST_COUNT", Json.num n) :: _) :: _ => n == 0
  | _ => false

/-- Body of the `check_user_exists` branch (lines 462-480), username
already uppercased by the dispatcher; there is no catch, so a failing
dictionary query propagates. -/
def checkUserBody (username : String) (c : Conn) : Except JsError Envelope × Conn :=
  match execSql c (Sql.countUser username) {} with
  | (Except.error e, c1) => (Except.error (JsError.dbError e), c1)
  | (Except.ok out, c1) =>
      (Except.ok (okEnvelope (Json.obj [("username", Json.str username),
                                        ("exists", Json.bool (existCountPositive out.rows))])), c1)

/-- Payload of the `create_user` already-exists short circuit. -/
def alreadyExistsPayload (username : String) : Json :=
  Json.obj [("error", Json.str ("User " ++ username ++ " already exists")),
            ("suggestion", Json.str "Use a different username or drop the existing user first")]

/-- Payload of the `create_user` success envelope. -/
def createdPayload (username : String) : Json :=
  Json.obj [("message", Json.str ("User " ++ username ++ " created successfully")),
            ("nextStep", Json.str "Use grant_privileges tool to assign permissions to the user")]

/-- Body of the `create_user` branch (lines 494-554): precondition check on
`dba_users`; short-circuit with an already-exists error envelope; then
`CREATE USER` and `ALTER USER`, each with `autoCommit: true`; every thrown
error is caught into an error envelope. -/
def createUserInner (username password tablespace tempTablespace : String) (c : Conn) :
    Except JsError Envelope × Conn :=
  match execSql c (Sql.countUser username) {} with
  | (Except.error e, c1) => (Except.error (JsError.dbError e), c1)
  | (Except.ok out, c1) =>
    if existCountPositive out.rows then
      (Except.ok (errJsonEnvelope (alreadyExistsPayload username)), c1)
    else
      match execSql c1 (Sql.createUser username password) { autoCommit := true } with
      | (Except.error e, c2) => (Except.error (JsError.dbError e), c2)
      | (Except.ok _, c2) =>
        match execSql c2 (Sql.alterUser username tablespace tempTablespace) { autoCommit := true } with
        | (Except.error e, c3) => (Except.error (JsError.dbError e), c3)
        | (Except.ok _, c3) => (Except.ok (okEnvelope (createdPayload username)), c3)

/-- Catch of the `create_user` branch around `createUserInner`. -/
def createUserBody (username password tablespace tempTablespace : String) (c : Conn) :
    Except JsError Envelope × Conn :=
  match createUserInner username password tablespace tempTablespace c with
  | (Except.error e, cF) =>
      (Except.ok (catchEnvelope e "Verifique la sintaxis y los permisos para crear usuarios"), cF)
  | (Except.ok env, cF) => (Except.ok env, cF)

/-- Per-privilege result `{privilege, granted, error?}` of `grant_privileges`. -/
structure GrantResult : Type where
  privilege : String
  granted : Bool
  error : Option String

/-- JSON form of a GrantResult; `JSON.stringify` omits the `error` key when
the field is `undefined`. -/
def GrantResult.toJson (r : GrantResult) : Json :=
  Json.obj ([("privilege", Json.str r.privilege), ("granted", Json.bool r.granted)]
    ++ (match r.error with
        | some m => [("error", Json.str m)]
        | none => []))

/-- Loop of the `grant_privileges` branch (lines 590-605): one `GRANT`
statement per privilege with `autoCommit: true`, each failure captured as
a per-item result instead of aborting the remaining privileges. -/
def grantLoop (privs : List String) (username : String) (c : Conn) : List GrantResult × Conn :=
  match privs with
  | [] => ([], c)
  | p :: rest =>
    match execSql c (Sql.grant p username) { autoCommit := true } with
    | (Except.ok _, c1) =>
        let r := grantLoop rest username c1
        ({ privilege := p, granted := true, error := none } :: r.1, r.2)
    | (Except.error e, c1) =>
        let r := grantLoop rest username c1
        ({ privilege := p, granted := false, error := some e.message } :: r.1, r.2)

/-- Payload of the `grant_privileges` summary envelope. -/
def grantPayload (username : String) (results : List GrantResult) : Json :=
  Json.obj [("message", Json.str ("Privileges processed for user " ++ username)),
            ("results", Json.arr (results.map GrantResult.toJson))]

/-- Payload of the `grant_privileges` user-not-found short circuit. -/
def userNotFoundPayload (username : String) : Json :=
  Json.obj [("error", Json.str ("User " ++ username ++ " does not exist")),
            ("suggestion", Json.str "Create the user first using create_user tool")]

/-- Body of the `grant_privileges` branch (lines 566-631): user-existence
precondition, then the grant loop; an absent `privileges` argument makes
the `for...of` throw a TypeError, which — like every other thrown error —
the branch-level catch converts to an error envelope. -/
def grantInner (username : String) (privArg : Option (List String)) (c : Conn) :
    Except JsError Envelope × Conn :=
  match execSql c (Sql.countUser username) {} with
  | (Except.error e, c1) => (Except.error (JsError.dbError e), c1)
  | (Except.ok out, c1) =>
    if existCountIsZero out.rows then
      (Except.ok (errJsonEnvelope (userNotFoundPayload username)), c1)
    else
      match privArg with
      | none => (Except.error (JsError.typeError "privileges is not iterable"), c1)
      | some privs =>
          let r := grantLoop privs username c1
          (Except.ok (okEnvelope (grantPayload username r.1)), r.2)

/-- Catch of the `grant_privileges` branch around `grantInner`. -/
def grantBody (username : String) (privArg : Option (List String)) (c : Conn) :
    Except JsError Envelope × Conn :=
  match grantInner username privArg c with
  | (Except.error e, cF) =>
      (Except.ok (catchEnvelope e "Verifique los permisos y la sintaxis de los privilegios"), cF)
  | (Except.ok env, cF) => (Except.ok env, cF)

/-- Reading of `tableCheck.rows[0].OWNER` (only evaluated after the
nonempty check; the dictionary semantics always yields this shape). -/
def firstOwner (rows : List Json) : String :=
  match rows with
  | Json.obj (("OWNER", Json.str s) :: _) :: _ => s
  | _ => ""

/-- Success payload of `get_table_data`. -/
def tableDataPayload (tableName owner : String) (data : List Json) : Json :=
  Json.obj [("tableName", Json.str tableName), ("owner", Json.str owner),
            ("rowCount", Json.num (data.length : Int)), ("data", Json.arr data)]

/-- Not-found payload of `get_table_data`. -/
def tableNotFoundPayload (tableName : String) : Json :=
  Json.obj [("error", Json.str ("Table " ++ tableName ++ " does not exist or you don't have access to it"))]

/-- Try-block of the `get_table_data` branch (lines 644-691):
`SET TRANSACTION READ ONLY`, owner lookup (a missing `tableName` argument
makes `.toUpperCase()` throw here), then the data query against the
owner-qualified name — qualified exactly when the owner differs from the
uppercased connecting user — bounded by `ROWNUM <= :limit` and
`maxRows: limit`. -/
def getTableDataInner (tableNameArg : Option String) (limit : Int) (c : Conn) :
    Except JsError Envelope × Conn :=
  match execSql c Sql.setTransactionReadOnly {} with
  | (Except.error e, c1) => (Except.error (JsError.dbError e), c1)
  | (Except.ok _, c1) =>
    match tableNameArg with
    | none => (Except.error (JsError.typeError "Cannot read properties of undefined (reading 'toUpperCase')"), c1)
    | some tn =>
      match execSql c1 (Sql.selectOwner (toUpperCase tn)) {} with
      | (Except.error e, c2) => (Except.error (JsError.dbError e), c2)
      | (Except.ok out, c2) =>
        if out.rows.length == 0 then
          (Except.ok (errJsonEnvelope (tableNotFoundPayload tn)), c2)
        else
          let owner := firstOwner out.rows
          let qualifier : Option String := if owner == c2.sessionUser then none else some owner
          match execSql c2 (Sql.selectRows qualifier (toUpperCase tn) limit) { maxRows := limit } with
          | (Except.error e, c3) => (Except.error (JsError.dbError e), c3)
          | (Except.ok out2, c3) =>
              (Except.ok (okEnvelope (tableDataPayload (toUpperCase tn) owner out2.rows)), c3)

/-- Body of the `get_table_data` branch (lines 643-712): the try-block
above, a catch turning every thrown error into an error envelope with a
remediation hint, and a `finally` that issues a `ROLLBACK` whose own
failure is caught and logged. -/
def getTableDataBody (tableNameArg : Option String) (limit : Int) (c : Conn) :
    Except JsError Envelope × Conn :=
  let inner := getTableDataInner tableNameArg limit c
  let afterCatch : Envelope × Conn :=
    match inner with
    | (Except.error e, cF) =>
        (catchEnvelope e "Verifique el nombre de la tabla y sus permisos de acceso", cF)
    | (Except.ok env, cF) => (env, cF)
  let fin := execSql afterCatch.2 Sql.rollback {}
  (Except.ok afterCatch.1, fin.2)

/-- Arguments object of a tool call (`request.params.arguments`); `none`
models an absent (`undefined`) property. The `sql` value carries the
semantic classification of the caller's SQL string. -/
structure CallArgs : Type where
  sql : Option RawSql := none
  username : Option String := none
  password : Option String := none
  tablespace : Option String := none
  tempTablespace : Option String := none
  privileges : Option (List String) := none
  tableName : Option String := none
  limit : Option Int := none

/-- TypeError thrown by `(undefined).toUpperCase()` when a username
argument is absent. -/
def usernameTypeError : JsError :=
  JsError.typeError "Cannot read properties of undefined (reading 'toUpperCase')"

/-- JavaScript `(x as string) || dflt`: an absent or empty string is falsy
and replaced by the default. -/
def strOrDefault (x : Option String) (dflt : String) : String :=
  match x with
  | none => dflt
  | some s => if s == "" then dflt else s

/-- JavaScript `(x as number) || 10` for the `get_table_data` limit: absent
or zero becomes 10. -/
def limitOrDefault (x : Option Int) : Int :=
  match x with
  | none => 10
  | some v => if v == 0 then 10 else v

/-- Embedding of the CallToolRequestSchema handler (lines 380-719): per-tool
dispatch on the operation name. Branches that read
`(arguments?.username as string).toUpperCase()` throw a TypeError before
any connection is borrowed when the username is absent; a missing
`password` interpolates as the string `"undefined"`; an unknown tool name
throws. -/
def callTool (name : String) (args : CallArgs) (env : Env) : WcOut Envelope :=
  if name == "query" then
    withConnection env (queryBody args.sql)
  else if name == "execute" then
    withConnection env (executeBody args.sql)
  else if name == "check_user_exists" then
    match args.username with
    | none => noCallResult env usernameTypeError
    | some u => withConnection env (checkUserBody (toUpperCase u))
  else if name == "create_user" then
    match args.username with
    | none => noCallResult env usernameTypeError
    | some u =>
        withConnection env
          (createUserBody (toUpperCase u) (args.password.getD "undefined")
            (strOrDefault args.tablespace "USERS") (strOrDefault args.tempTablespace "TEMP"))
  else if name == "grant_privileges" then
    match args.username with
    | none => noCallResult env usernameTypeError
    | some u => withConnection env (grantBody (toUpperCase u) args.privileges)
  else if name == "get_table_data" then
    withConnection env (getTableDataBody args.tableName (limitOrDefault args.limit))
  else
    noCallResult env (JsError.jsError ("Unknown tool: " ++ name))

/-- Components of the connection string `user/password@host:port/service`
(line 58). -/
structure ConnParts : Type where
  user : String
  password : String
  host : String
  port : String
  serviceName : String

/-- Resource base URL (lines 60-61): built from user, host, port and
service name — the password is deliberately excluded. -/
def resourceBaseUrl (p : ConnParts) : String :=
  "oracle://" ++ p.user ++ "@" ++ p.host ++ ":" ++ p.port ++ "/" ++ p.serviceName

/-- Path suffix of schema resources. -/
def SCHEMA_PATH : String := "schema"

/-- Resource URI produced by `new URL(tableName/SCHEMA_PATH,
resourceBaseUrl).href` (line 168): WHATWG relative-reference resolution
replaces the last path segment of the base (the service name) with the
relative path. -/
def resourceUri (p : ConnParts) (tableName : String) : String :=
  "oracle://" ++ p.user ++ "@" ++ p.host ++ ":" ++ p.port ++ "/" ++ tableName ++ "/" ++ SCHEMA_PATH

/-- One entry of the ListResources response. -/
structure McpResource : Type where
  uri : String
  mimeType : String
  name : String

/-- Embedding of the ListResourcesRequestSchema handler result mapping
(lines 166-172) over the table names the dictionary query returned. -/
def listResources (p : ConnParts) (tableNames : List String) : List McpResource :=
  tableNames.map (fun t =>
    { uri := resourceUri p t, mimeType := "application/json",
      name := "\"" ++ t ++ "\" database schema" })

/-- Fault assignment equal to `f` except for the outcome of `ROLLBACK`
statements (used to state that rollback failures never change a result). -/
def setRollbackFault (f : Faults) (v : Option DbError) : Faults :=
  { f with stmtError := fun s =>
      match s with
      | Sql.rollback => v
      | s' => f.stmtError s' }

/-- Statements that create or reconfigure a user (the DDL of `create_user`). -/
def isCreateOrAlter : Sql → Bool
  | Sql.createUser _ _ => true
  | Sql.alterUser _ _ _ => true
  | _ => false

/-- Expected per-privilege results of the grant loop under a fault
assignment: one entry per requested privilege, in request order, failed
exactly when the driver failed that `GRANT`. -/
def grantExpected (privs : List String) (u : String) (f : Faults) : List GrantResult :=
  privs.map (fun p =>
    match f.stmtError (Sql.grant p u) with
    | some e => { privilege := p, granted := false, error := some e.message }
    | none => { privilege := p, granted := true, error := none })

/-- Execute-call records the grant loop appends to the trace. -/
def grantCalls (privs : List String) (u : String) : List ExecCall :=
  privs.map (fun p => { sql := Sql.grant p u, autoCommit := true, maxRows := 0 })

/-- Outcome of the caller-supplied SQL of `query` once the session is in
read-only mode: driver fault, absent argument, a select's first 1000 rows,
the read-only rejection of DML, or the statement's own error. -/
def queryRawOutcome (f : Faults) (sqlArg : Option RawSql) : Except DbError (List Json) :=
  match f.stmtError (Sql.raw sqlArg) with
  | some e => Except.error e
  | none =>
    match sqlArg with
    | none => Except.error undefinedSqlErr
    | some (RawSql.select rows) => Except.ok (rows.take 1000)
    | some (RawSql.dml _ _) => Except.error readOnlyViolation
    | some (RawSql.invalid e) => Except.error e

/-- Shared witness database: one existing user and one table owned by the
connecting user's schema. -/
def dbW : Db :=
  { users := ["SYS"], tables := [{ owner := "SCOTT", name := "T", rows := [Json.null] }] }

/-- Shared witness environment with no injected faults. -/
def envW : Env := { user := "scott", db := dbW, faults := Faults.benign }

/-- Witness environment whose connection-close always fails. -/
def envC3 : Env :=
  { user := "scott", db := dbW,
    faults := { acquireFails := none,
                closeFails := some { message := "close failed", errorNum := none },
                stmtError := fun _ => none } }

/-- Witness fault assignment failing exactly the GRANT of the privilege
string "XYZ". -/
def faultsC6 : Faults :=
  { acquireFails := none, closeFails := none,
    stmtError := fun s =>
      match s with
      | Sql.grant "XYZ" _ => some { message := "ORA-00990: missing or invalid privilege", errorNum := some 990 }
      | _ => none }

/-- Witness environment for the mixed-privilege grant. -/
def envC6 : Env := { user := "scott", db := dbW, faults := faultsC6 }

/-- Driver error produced by a syntactically invalid caller SQL. -/
def qSyntaxErr : DbError :=
  { message := "ORA-00933: SQL command not properly ended", errorNum := some 933 }

theorem execSql_faults (c : Conn) (sql : Sql) (opts : ExecOpts) :
    ((execSql c sql opts).2).faults = c.faults := by
  cases sql <;>
    simp only [execSql, maybeCommit, modifyCurrent] <;>
    (repeat' split) <;> simp

theorem execSql_sessionUser (c : Conn) (sql : Sql) (opts : ExecOpts) :
    ((execSql c sql opts).2).sessionUser = c.sessionUser := by
  cases sql <;>
    simp only [execSql, maybeCommit, modifyCurrent] <;>
    (repeat' split) <;> simp

theorem execSql_trace (c : Conn) (sql : Sql) (opts : ExecOpts) :
    ((execSql c sql opts).2).trace
      = c.trace ++ [{ sql := sql, autoCommit := opts.autoCommit, maxRows := opts.maxRows }] := by
  cases sql <;>
    simp only [execSql, maybeCommit, modifyCurrent] <;>
    (repeat' split) <;> simp

theorem execSql_committed (c : Conn) (sql : Sql) (opts : ExecOpts)
    (h : opts.autoCommit = false) :
    ((execSql c sql opts).2).sess.committed = c.sess.committed := by
  cases sql <;>
    simp only [execSql, maybeCommit, modifyCurrent, h] <;>
    (repeat' split) <;> simp_all

theorem withConnection_acquireOk {α : Type} (env : Env) (cb : Conn → Except JsError α × Conn)
    (h : env.faults.acquireFails = none) :
    withConnection env cb =
      { result := (cb (initConn env)).1,
        poolEvents := [PoolEvent.acquire, closeEvent env.faults],
        trace := (cb (initConn env)).2.trace,
        finalDb := (cb (initConn env)).2.sess.committed } := by
  simp [withConnection, h]

theorem closeEvent_isClose (f : Faults) : (closeEvent f).isClose = true := by
  unfold closeEvent
  split <;> rfl

theorem dbCountUser_pos (db : Db) (u : String) (h : db.users.contains u = true) :
    0 < dbCountUser db u := by
  unfold dbCountUser
  have hm : u ∈ db.users := by simpa using h
  have hmem : u ∈ db.users.filter (fun x => x == u) :=
    List.mem_filter.mpr ⟨hm, by simp⟩
  have hlen : 0 < (db.users.filter (fun x => x == u)).length :=
    List.length_pos.mpr (List.ne_nil_of_mem hmem)
  exact_mod_cast hlen

theorem dbCountUser_zero (db : Db) (u : String) (h : db.users.contains u = false) :
    dbCountUser db u = 0 := by
  unfold dbCountUser
  have hm : u ∉ db.users := by simpa using h
  have hnil : db.users.filter (fun x => x == u) = [] := by
    apply List.filter_eq_nil_iff.mpr
    intro a ha hbeq
    have hau : a = u := by simpa using hbeq
    exact hm (hau ▸ ha)
  simp [hnil]

theorem executeBody_ok (sqlArg : Option RawSql) (c : Conn) :
    ∃ e, (executeBody sqlArg c).1 = Except.ok e := by
  unfold executeBody
  split <;> exact ⟨_, rfl⟩

theorem createUserBody_ok (u p ts tts : String) (c : Conn) :
    ∃ e, (createUserBody u p ts tts c).1 = Except.ok e := by
  unfold createUserBody
  split <;> exact ⟨_, rfl⟩

theorem grantBody_ok (u : String) (privArg : Option (List String)) (c : Conn) :
    ∃ e, (grantBody u privArg c).1 = Except.ok e := by
  unfold grantBody
  split <;> exact ⟨_, rfl⟩

theorem getTableDataBody_ok (tn : Option String) (l : Int) (c : Conn) :
    ∃ e, (getTableDataBody tn l c).1 = Except.ok e := ⟨_, rfl⟩

/-- Claim C3: for every outcome of the callback passed to `withConnection` —
normal return or thrown error — the borrowed connection is released exactly
once before `withConnection` returns or rethrows, and a failure during
release is logged without replacing the callback's original result or
error: the result equals the callback's own result for every value of the
close-fault, and the pool events contain exactly one release attempt. -/
theorem claim_C3_release_once {α : Type} (env : Env) (cb : Conn → Except JsError α × Conn)
    (h : env.faults.acquireFails = none) :
    (withConnection env cb).result = (cb (initConn env)).1
    ∧ ((withConnection env cb).poolEvents.countP (fun ev => ev.isClose)) = 1
    ∧ (withConnection env cb).poolEvents = [PoolEvent.acquire, closeEvent env.faults] := by
  rw [withConnection_acquireOk env cb h]
  refine ⟨rfl, ?_, rfl⟩
  have h1 : (closeEvent env.faults).isClose = true := closeEvent_isClose _
  have h2 : (PoolEvent.acquire).isClose = false := rfl
  simp [List.countP_cons, h1, h2]

/-- Witness for claim C3, at an environment whose connection-close always
fails: the callback's result is still returned unchanged and the release
is attempted exactly once. -/
theorem claim_C3_witness :
    (withConnection envC3 (fun c => ((Except.ok (0 : Nat) : Except JsError Nat), c))).result
        = ((fun c => ((Except.ok (0 : Nat) : Except JsError Nat), c)) (initConn envC3)).1
    ∧ ((withConnection envC3 (fun c => ((Except.ok (0 : Nat) : Except JsError Nat), c))).poolEvents.countP
        (fun ev => ev.isClose)) = 1
    ∧ (withConnection envC3 (fun c => ((Except.ok (0 : Nat) : Except JsError Nat), c))).poolEvents
        = [PoolEvent.acquire, closeEvent envC3.faults] :=
  claim_C3_release_once envC3 _ rfl

/-- Claim C9: for every two process startups whose connection strings
differ only in the password component, the resource URIs produced by the
list-resources handler are identical — the resource listing is a function
of the user, host, port and service name only, so the password never
enters any resource URI. -/
theorem claim_C9_password_independent (p1 p2 : ConnParts) (ts : List String)
    (hu : p1.user = p2.user) (hh : p1.host = p2.host) (hp : p1.port = p2.port)
    (hs : p1.serviceName = p2.serviceName) :
    listResources p1 ts = listResources p2 ts := by
  cases p1
  cases p2
  simp only at hu hh hp hs
  subst hu hh hp hs
  rfl

/-- Witness for claim C9: two startups with passwords "tiger" and "hunter2"
produce identical resource listings. -/
theorem claim_C9_witness :
    listResources { user := "scott", password := "tiger", host := "db", port := "1521", serviceName := "XEPDB1" } ["EMP"]
      = listResources { user := "scott", password := "hunter2", host := "db", port := "1521", serviceName := "XEPDB1" } ["EMP"] :=
  claim_C9_password_independent _ _ _ rfl rfl rfl rfl

/-- Claim C10: for every invocation of check_user_exists, create_user or
grant_privileges, the username argument is uppercased before it is
compared against the user catalog or interpolated into DDL, so two
invocations whose usernames agree up to letter case produce identical
call outcomes (result, pool events, statement trace and final database). -/
theorem claim_C10_case_insensitive (name : String) (args : CallArgs) (env : Env)
    (u1 u2 : String)
    (hname : name = "check_user_exists" ∨ name = "create_user" ∨ name = "grant_privileges")
    (h : toUpperCase u1 = toUpperCase u2) :
    callTool name { args with username := some u1 } env
      = callTool name { args with username := some u2 } env := by
  rcases hname with rfl | rfl | rfl <;> simp [callTool, h]


/-- Claim C1 (amended): the execute, create_user, grant_privileges and
get_table_data branches wrap their bodies in a catch, so — once a
connection is acquired — every outcome, success or driver-level failure,
comes back as an Envelope; the only escape is the missing-username
TypeError, which aborts before any connection is borrowed.  (The original
claim is refuted by the accompanying counterexample: the query and
check_user_exists branches have no catch, so their driver failures
propagate uncaught even after a connection was borrowed.) -/
theorem claim_C1_amended (name : String) (args : CallArgs) (env : Env)
    (hname : name = "execute" ∨ name = "create_user" ∨ name = "grant_privileges"
      ∨ name = "get_table_data")
    (hacq : env.faults.acquireFails = none) :
    (∃ e, (callTool name args env).result = Except.ok e)
    ∨ ((callTool name args env).result = Except.error usernameTypeError
        ∧ (callTool name args env).poolEvents = []) := by
  rcases hname with rfl | rfl | rfl | rfl
  · left
    have hred : callTool "execute" args env = withConnection env (executeBody args.sql) := by
      simp [callTool]
    rw [hred, withConnection_acquireOk _ _ hacq]
    exact executeBody_ok _ _
  · cases hu : args.username with
    | none => right; simp [callTool, hu, noCallResult]
    | some u =>
        left
        have hred : callTool "create_user" args env
            = withConnection env
                (createUserBody (toUpperCase u) (args.password.getD "undefined")
                  (strOrDefault args.tablespace "USERS") (strOrDefault args.tempTablespace "TEMP")) := by
          simp [callTool, hu]
        rw [hred, withConnection_acquireOk _ _ hacq]
        exact createUserBody_ok _ _ _ _ _
  · cases hu : args.username with
    | none => right; simp [callTool, hu, noCallResult]
    | some u =>
        left
        have hred : callTool "grant_privileges" args env
            = withConnection env (grantBody (toUpperCase u) args.privileges) := by
          simp [callTool, hu]
        rw [hred, withConnection_acquireOk _ _ hacq]
        exact grantBody_ok _ _ _
  · left
    have hred : callTool "get_table_data" args env
        = withConnection env (getTableDataBody args.tableName (limitOrDefault args.limit)) := by
      simp [callTool]
    rw [hred, withConnection_acquireOk _ _ hacq]
    exact getTableDataBody_ok _ _ _

/-- Witness for claim C1 (amended) at the execute branch with no sql
argument: the outcome is still an Envelope. -/
theorem claim_C1_witness :
    (∃ e, (callTool "execute" {} envW).result = Except.ok e)
    ∨ ((callTool "execute" {} envW).result = Except.error usernameTypeError
        ∧ (callTool "execute" {} envW).poolEvents = []) :=
  claim_C1_amended "execute" {} envW (Or.inl rfl) rfl

/-- Counterexample to claim C1 as stated: a recognized operation (query)
with a syntactically invalid SQL borrows a connection (acquire event
present) and then lets the raw driver error ORA-00933 propagate past the
dispatcher instead of returning an Envelope. -/
theorem claim_C1_counterexample :
    (callTool "query" { sql := some (RawSql.invalid qSyntaxErr) } envW).result
      = Except.error (JsError.dbError qSyntaxErr)
    ∧ (callTool "query" { sql := some (RawSql.invalid qSyntaxErr) } envW).poolEvents
      = [PoolEvent.acquire, PoolEvent.closeOk] := ⟨rfl, rfl⟩

/-- Claim C2 (amended): a missing `username` on check_user_exists,
create_user or grant_privileges is the only pre-borrow abort — it throws
a TypeError with no pool activity; every other invocation of a known
operation borrows (and releases) a connection whenever pool acquisition
succeeds, with no argument validation before the borrow: query and
execute borrow for every `sql` value including an absent one,
get_table_data borrows for every `tableName` value including an absent
one, and the three username operations borrow for every present username
regardless of the remaining arguments — in particular grant_privileges
with an absent `privileges` list.  (The original claim is refuted by the
accompanying counterexample.) -/
theorem claim_C2_amended (env : Env) (args : CallArgs) :
    (env.faults.acquireFails = none →
      (callTool "query" args env).poolEvents = [PoolEvent.acquire, closeEvent env.faults]
      ∧ (callTool "execute" args env).poolEvents = [PoolEvent.acquire, closeEvent env.faults]
      ∧ (callTool "get_table_data" args env).poolEvents = [PoolEvent.acquire, closeEvent env.faults])
    ∧ (∀ name, (name = "check_user_exists" ∨ name = "create_user" ∨ name = "grant_privileges") →
        (args.username = none →
          callTool name args env = noCallResult env usernameTypeError)
        ∧ (env.faults.acquireFails = none → ∀ u, args.username = some u →
            (callTool name args env).poolEvents = [PoolEvent.acquire, closeEvent env.faults])) := by
  constructor
  · intro hacq
    refine ⟨?_, ?_, ?_⟩
    · have hred : callTool "query" args env = withConnection env (queryBody args.sql) := by
        simp [callTool]
      rw [hred, withConnection_acquireOk _ _ hacq]
    · have hred : callTool "execute" args env = withConnection env (executeBody args.sql) := by
        simp [callTool]
      rw [hred, withConnection_acquireOk _ _ hacq]
    · have hred : callTool "get_table_data" args env
          = withConnection env (getTableDataBody args.tableName (limitOrDefault args.limit)) := by
        simp [callTool]
      rw [hred, withConnection_acquireOk _ _ hacq]
  · intro name hname
    constructor
    · intro hu
      rcases hname with rfl | rfl | rfl <;> simp [callTool, hu]
    · intro hacq u hu
      rcases hname with rfl | rfl | rfl
      · have hred : callTool "check_user_exists" args env
            = withConnection env (checkUserBody (toUpperCase u)) := by
          simp [callTool, hu]
        rw [hred, withConnection_acquireOk _ _ hacq]
      · have hred : callTool "create_user" args env
            = withConnection env
                (createUserBody (toUpperCase u) (args.password.getD "undefined")
                  (strOrDefault args.tablespace "USERS") (strOrDefault args.tempTablespace "TEMP")) := by
          simp [callTool, hu]
        rw [hred, withConnection_acquireOk _ _ hacq]
      · have hred : callTool "grant_privileges" args env
            = withConnection env (grantBody (toUpperCase u) args.privileges) := by
          simp [callTool, hu]
        rw [hred, withConnection_acquireOk _ _ hacq]

/-- Witness for claim C2 (amended): with no arguments at all, query,
execute and get_table_data still borrow a connection while
check_user_exists aborts with the TypeError; with a username present,
check_user_exists borrows, and grant_privileges borrows despite its
`privileges` list being absent. -/
theorem claim_C2_witness :
    ((callTool "query" {} envW).poolEvents = [PoolEvent.acquire, closeEvent envW.faults]
      ∧ (callTool "execute" {} envW).poolEvents = [PoolEvent.acquire, closeEvent envW.faults]
      ∧ (callTool "get_table_data" {} envW).poolEvents = [PoolEvent.acquire, closeEvent envW.faults])
    ∧ callTool "check_user_exists" {} envW = noCallResult envW usernameTypeError
    ∧ (callTool "check_user_exists" { username := some "sys" } envW).poolEvents
        = [PoolEvent.acquire, closeEvent envW.faults]
    ∧ (callTool "grant_privileges" { username := some "sys" } envW).poolEvents
        = [PoolEvent.acquire, closeEvent envW.faults] := by
  have t1 := claim_C2_amended envW {}
  have t2 := claim_C2_amended envW { username := some "sys" }
  exact ⟨t1.1 rfl,
         (t1.2 "check_user_exists" (Or.inl rfl)).1 rfl,
         (t2.2 "check_user_exists" (Or.inl rfl)).2 rfl "sys" rfl,
         (t2.2 "grant_privileges" (Or.inr (Or.inr rfl))).2 rfl "sys" rfl⟩

/-- Counterexample to claim C2 as stated: query invoked without its
required `sql` argument is not rejected before a connection is borrowed —
the pool records an acquisition, and the failure is a driver error raised
only afterwards. -/
theorem claim_C2_counterexample :
    (callTool "query" {} envW).poolEvents = [PoolEvent.acquire, PoolEvent.closeOk]
    ∧ (callTool "query" {} envW).result = Except.error (JsError.dbError undefinedSqlErr) :=
  ⟨rfl, rfl⟩

theorem applyMaxRows_length_le (opts : ExecOpts) (rows : List Json) (hm : 0 < opts.maxRows) :
    (applyMaxRows opts rows).length ≤ opts.maxRows.toNat := by
  unfold applyMaxRows
  split
  · omega
  · simp only [List.length_take]
    omega

theorem execSql_rows_le (c : Conn) (sql : Sql) (opts : ExecOpts) (out : ExecOut) (c' : Conn)
    (hm : 0 < opts.maxRows)
    (h : execSql c sql opts = (Except.ok out, c')) :
    out.rows.length ≤ opts.maxRows.toNat := by
  cases sql <;> simp only [execSql] at h <;> (repeat' split at h) <;>
    (injection h with h1 h2) <;>
    first
      | (injection h1 with h3
         subst h3
         first
           | exact applyMaxRows_length_le opts _ hm
           | simp)
      | injection h1

theorem queryBody_ok_shape (sqlArg : Option RawSql) (c : Conn) (e : Envelope)
    (h : (queryBody sqlArg c).1 = Except.ok e) :
    ∃ rows : List Json, e = okEnvelope (Json.arr rows) ∧ rows.length ≤ 1000 := by
  simp only [queryBody] at h
  split at h
  · simp at h
  · split at h
    · simp at h
    · rename_i out c2 heq
      simp only at h
      refine ⟨out.rows, ?_, ?_⟩
      · injection h with h1
        exact h1.symm
      · exact execSql_rows_le _ _ _ _ _ (by norm_num) heq

/-- Claim C8: every successful `query` response payload is the row set of
the caller's statement truncated by `maxRows: 1000` — it contains at most
1000 rows, regardless of the SQL submitted or any limit expressed inside
it. -/
theorem claim_C8_row_cap (args : CallArgs) (env : Env) (e : Envelope)
    (h : (callTool "query" args env).result = Except.ok e) :
    ∃ rows : List Json, e = okEnvelope (Json.arr rows) ∧ rows.length ≤ 1000 := by
  have hred : callTool "query" args env = withConnection env (queryBody args.sql) := by
    simp [callTool]
  rw [hred] at h
  cases hacq : env.faults.acquireFails with
  | some err => simp [withConnection, hacq] at h
  | none =>
      rw [withConnection_acquireOk _ _ hacq] at h
      exact queryBody_ok_shape _ _ _ h

/-- Witness for claim C8 at a two-row select. -/
theorem claim_C8_witness :
    ∃ rows : List Json,
      okEnvelope (Json.arr [Json.null, Json.null]) = okEnvelope (Json.arr rows)
      ∧ rows.length ≤ 1000 :=
  claim_C8_row_cap { sql := some (RawSql.select [Json.null, Json.null]) } envW
    (okEnvelope (Json.arr [Json.null, Json.null])) rfl

theorem queryBody_committed (sqlArg : Option RawSql) (c : Conn) :
    ((queryBody sqlArg c).2).sess.committed = c.sess.committed := by
  rcases h1 : execSql c Sql.setTransactionReadOnly {} with ⟨r1, c1⟩
  have hc1 : c1.sess.committed = c.sess.committed := by
    have := execSql_committed c Sql.setTransactionReadOnly {} rfl
    rw [h1] at this
    exact this
  cases r1 with
  | error e =>
      rcases h3 : execSql c1 Sql.rollback {} with ⟨r3, c3⟩
      have hc3 : c3.sess.committed = c1.sess.committed := by
        have := execSql_committed c1 Sql.rollback {} rfl
        rw [h3] at this
        exact this
      simp [queryBody, h1, h3, hc3, hc1]
  | ok out =>
      rcases h2 : execSql c1 (Sql.raw sqlArg) { maxRows := 1000 } with ⟨r2, c2⟩
      have hc2 : c2.sess.committed = c1.sess.committed := by
        have := execSql_committed c1 (Sql.raw sqlArg) { maxRows := 1000 } rfl
        rw [h2] at this
        exact this
      rcases h3 : execSql c2 Sql.rollback {} with ⟨r3, c3⟩
      have hc3 : c3.sess.committed = c2.sess.committed := by
        have := execSql_committed c2 Sql.rollback {} rfl
        rw [h3] at this
        exact this
      cases r2 <;> simp [queryBody, h1, h2, h3, hc3, hc2, hc1]

theorem queryBody_trace (sqlArg : Option RawSql) (c : Conn) :
    ((queryBody sqlArg c).2).trace.map (fun cl => cl.sql)
        = c.trace.map (fun cl => cl.sql) ++ [Sql.setTransactionReadOnly, Sql.rollback]
    ∨ ((queryBody sqlArg c).2).trace.map (fun cl => cl.sql)
        = c.trace.map (fun cl => cl.sql) ++ [Sql.setTransactionReadOnly, Sql.raw sqlArg, Sql.rollback] := by
  rcases h1 : execSql c Sql.setTransactionReadOnly {} with ⟨r1, c1⟩
  have ht1 : c1.trace = c.trace ++ [{ sql := Sql.setTransactionReadOnly, autoCommit := false, maxRows := 0 }] := by
    have := execSql_trace c Sql.setTransactionReadOnly {}
    rw [h1] at this
    exact this
  cases r1 with
  | error e =>
      left
      rcases h3 : execSql c1 Sql.rollback {} with ⟨r3, c3⟩
      have ht3 : c3.trace = c1.trace ++ [{ sql := Sql.rollback, autoCommit := false, maxRows := 0 }] := by
        have := execSql_trace c1 Sql.rollback {}
        rw [h3] at this
        exact this
      simp [queryBody, h1, h3, ht3, ht1]
  | ok out =>
      right
      rcases h2 : execSql c1 (Sql.raw sqlArg) { maxRows := 1000 } with ⟨r2, c2⟩
      have ht2 : c2.trace = c1.trace ++ [{ sql := Sql.raw sqlArg, autoCommit := false, maxRows := 1000 }] := by
        have := execSql_trace c1 (Sql.raw sqlArg) { maxRows := 1000 }
        rw [h2] at this
        exact this
      rcases h3 : execSql c2 Sql.rollback {} with ⟨r3, c3⟩
      have ht3 : c3.trace = c2.trace ++ [{ sql := Sql.rollback, autoCommit := false, maxRows := 0 }] := by
        have := execSql_trace c2 Sql.rollback {}
        rw [h3] at this
        exact this
      cases r2 <;> simp [queryBody, h1, h2, h3, ht3, ht2, ht1]

theorem callTool_query_red (args : CallArgs) (env : Env) :
    callTool "query" args env = withConnection env (queryBody args.sql) := by
  simp [callTool]

/-- Claim C4: for every `query` invocation (1) the committed database
after the call equals the database before it — a mutating statement
issued through query leaves the state unchanged; (2) when a connection is
acquired, the trace starts with SET TRANSACTION READ ONLY and ends with
ROLLBACK on both completion paths, the caller's SQL (if reached) strictly
between them; (3) the result is unchanged under any injected ROLLBACK
failure — rollback failures are logged and swallowed; and (4) a DML
statement submitted through query fails with ORA-01456 because the
session is read-only before the caller-supplied SQL executes. -/
theorem claim_C4_read_only_rollback (env : Env) (args : CallArgs) :
    (callTool "query" args env).finalDb = env.db
    ∧ (env.faults.acquireFails = none →
        ((callTool "query" args env).trace.map (fun cl => cl.sql)
            = [Sql.setTransactionReadOnly, Sql.rollback]
          ∨ (callTool "query" args env).trace.map (fun cl => cl.sql)
            = [Sql.setTransactionReadOnly, Sql.raw args.sql, Sql.rollback]))
    ∧ (∀ v : Option DbError,
        (callTool "query" args { env with faults := setRollbackFault env.faults v }).result
          = (callTool "query" args { env with faults := setRollbackFault env.faults none }).result)
    ∧ (∀ (eff : Db → Db) (n : Nat), args.sql = some (RawSql.dml eff n) →
        env.faults.acquireFails = none →
        env.faults.stmtError Sql.setTransactionReadOnly = none →
        env.faults.stmtError (Sql.raw args.sql) = none →
        (callTool "query" args env).result = Except.error (JsError.dbError readOnlyViolation)) := by
  refine ⟨?_, ?_, ?_, ?_⟩
  · rw [callTool_query_red]
    cases hacq : env.faults.acquireFails with
    | some e => simp [withConnection, hacq]
    | none =>
        rw [withConnection_acquireOk _ _ hacq]
        exact queryBody_committed _ _
  · intro hacq
    rw [callTool_query_red, withConnection_acquireOk _ _ hacq]
    have := queryBody_trace args.sql (initConn env)
    simpa [initConn] using this
  · intro v
    rw [callTool_query_red, callTool_query_red]
    cases hacq : env.faults.acquireFails with
    | some e => simp [withConnection, setRollbackFault, hacq]
    | none =>
        rw [withConnection_acquireOk _ _ (by simp [setRollbackFault, hacq]),
            withConnection_acquireOk _ _ (by simp [setRollbackFault, hacq])]
        cases hst : env.faults.stmtError Sql.setTransactionReadOnly <;>
          cases hraw : env.faults.stmtError (Sql.raw args.sql) <;>
          rcases hsql : args.sql with _ | ⟨rows⟩ | ⟨eff, n⟩ | ⟨er⟩ <;>
          simp [queryBody, execSql, initConn, setRollbackFault, hst, hsql,
            hsql ▸ hraw, applyMaxRows, maybeCommit, modifyCurrent]
  · intro eff n hsql hacq hst hraw
    rw [callTool_query_red, withConnection_acquireOk _ _ hacq]
    simp [queryBody, execSql, initConn, hst, hsql, hsql ▸ hraw]

/-- Witness for claim C4: a concrete DML statement through query is
rejected by the read-only session. -/
theorem claim_C4_witness :
    (callTool "query" { sql := some (RawSql.dml (fun db => { db with users := [] }) 1) } envW).result
      = Except.error (JsError.dbError readOnlyViolation) :=
  (claim_C4_read_only_rollback envW
    { sql := some (RawSql.dml (fun db => { db with users := [] }) 1) }).2.2.2
    (fun db => { db with users := [] }) 1 rfl rfl rfl rfl

theorem execSql_countUser (c : Conn) (u : String)
    (h : c.faults.stmtError (Sql.countUser u) = none) :
    execSql c (Sql.countUser u) {} =
      (Except.ok { rows := [Json.obj [("EXIST_COUNT", Json.num (dbCountUser c.sess.current u))]],
                   rowsAffected := none },
       { c with trace := c.trace ++ [{ sql := Sql.countUser u, autoCommit := false, maxRows := 0 }] }) := by
  simp [execSql, h, applyMaxRows]

theorem execSql_grant_ok (c : Conn) (p u : String)
    (hf : c.faults.stmtError (Sql.grant p u) = none)
    (hro : c.sess.readOnly = false)
    (hu : c.sess.current.users.contains u = true)
    (hcc : c.sess.committed = c.sess.current) :
    execSql c (Sql.grant p u) { autoCommit := true } =
      (Except.ok { rows := [], rowsAffected := none },
       { c with trace := c.trace ++ [{ sql := Sql.grant p u, autoCommit := true, maxRows := 0 }] }) := by
  obtain ⟨⟨com, cur, ro⟩, su, f, tr⟩ := c
  simp only at hf hro hu hcc
  subst hro hcc
  have hm : u ∈ com.users := by simpa using hu
  simp [execSql, hf, hm, maybeCommit]

theorem execSql_grant_err (c : Conn) (p u : String) (e : DbError)
    (hf : c.faults.stmtError (Sql.grant p u) = some e) :
    execSql c (Sql.grant p u) { autoCommit := true } =
      (Except.error e,
       { c with trace := c.trace ++ [{ sql := Sql.grant p u, autoCommit := true, maxRows := 0 }] }) := by
  simp [execSql, hf]

theorem grantLoop_spec (privs : List String) (u : String) (c : Conn)
    (hro : c.sess.readOnly = false)
    (hu : c.sess.current.users.contains u = true)
    (hcc : c.sess.committed = c.sess.current) :
    grantLoop privs u c
      = (grantExpected privs u c.faults, { c with trace := c.trace ++ grantCalls privs u }) := by
  induction privs generalizing c with
  | nil => simp [grantLoop, grantExpected, grantCalls]
  | cons p rest ih =>
      cases hf : c.faults.stmtError (Sql.grant p u) with
      | none =>
          have ihc := ih { c with trace := c.trace ++ [{ sql := Sql.grant p u, autoCommit := true, maxRows := 0 }] }
            hro hu hcc
          simp only [grantLoop, execSql_grant_ok c p u hf hro hu hcc, ihc]
          simp [grantExpected, grantCalls, hf]
      | some e =>
          have ihc := ih { c with trace := c.trace ++ [{ sql := Sql.grant p u, autoCommit := true, maxRows := 0 }] }
            hro hu hcc
          simp only [grantLoop, execSql_grant_err c p u e hf, ihc]
          simp [grantExpected, grantCalls, hf]

theorem existCountIsZero_of_contains (db : Db) (u : String) (h : db.users.contains u = true) :
    existCountIsZero [Json.obj [("EXIST_COUNT", Json.num (dbCountUser db u))]] = false := by
  have hpos := dbCountUser_pos db u h
  simp [existCountIsZero]
  omega

theorem grantCalls_map_sql (privs : List String) (u : String) :
    (grantCalls privs u).map (fun cl => cl.sql) = privs.map (fun p => Sql.grant p u) := by
  simp [grantCalls, List.map_map]

/-- Claim C6: grant_privileges on an existing user executes one GRANT per
requested privilege in request order (trace conjunct), captures each
failure as a per-item GrantResult without aborting the rest, and returns
an Envelope with isError false whose payload lists exactly one result per
requested privilege, in order, even when some grants failed
(`grantExpected` marks exactly the faulted grants as failed). -/
theorem claim_C6_grant_per_item (env : Env) (args : CallArgs) (u : String) (privs : List String)
    (hU : args.username = some u)
    (hP : args.privileges = some privs)
    (hacq : env.faults.acquireFails = none)
    (hchk : env.faults.stmtError (Sql.countUser (toUpperCase u)) = none)
    (hex : env.db.users.contains (toUpperCase u) = true) :
    (callTool "grant_privileges" args env).result
      = Except.ok (okEnvelope (grantPayload (toUpperCase u)
          (grantExpected privs (toUpperCase u) env.faults)))
    ∧ (callTool "grant_privileges" args env).trace.map (fun cl => cl.sql)
      = Sql.countUser (toUpperCase u) :: privs.map (fun p => Sql.grant p (toUpperCase u)) := by
  have hred : callTool "grant_privileges" args env
      = withConnection env (grantBody (toUpperCase u) args.privileges) := by
    simp [callTool, hU]
  rw [hred, withConnection_acquireOk _ _ hacq, hP]
  have hcount := execSql_countUser (initConn env) (toUpperCase u) hchk
  simp only [initConn, List.nil_append] at hcount
  have hzero : existCountIsZero [Json.obj [("EXIST_COUNT", Json.num (dbCountUser env.db (toUpperCase u)))]] = false :=
    existCountIsZero_of_contains env.db (toUpperCase u) hex
  have hloop := grantLoop_spec privs (toUpperCase u)
    { sess := { committed := env.db, current := env.db, readOnly := false },
      sessionUser := toUpperCase env.user, faults := env.faults,
      trace := [{ sql := Sql.countUser (toUpperCase u), autoCommit := false, maxRows := 0 }] }
    rfl hex rfl
  simp [grantBody, grantInner, initConn, hcount, hzero, hloop, grantCalls_map_sql]

/-- Witness for claim C6: one valid and one invalid privilege; the
response is a success Envelope with one granted and one failed entry. -/
theorem claim_C6_witness :
    (callTool "grant_privileges"
        { username := some "sys", privileges := some ["CREATE SESSION", "XYZ"] } envC6).result
      = Except.ok (okEnvelope (grantPayload (toUpperCase "sys")
          (grantExpected ["CREATE SESSION", "XYZ"] (toUpperCase "sys") envC6.faults)))
    ∧ (callTool "grant_privileges"
        { username := some "sys", privileges := some ["CREATE SESSION", "XYZ"] } envC6).trace.map (fun cl => cl.sql)
      = Sql.countUser (toUpperCase "sys")
          :: (["CREATE SESSION", "XYZ"].map (fun p => Sql.grant p (toUpperCase "sys"))) :=
  claim_C6_grant_per_item envC6 _ "sys" ["CREATE SESSION", "XYZ"] rfl rfl rfl rfl (by decide)

theorem existCountPositive_of_contains (db : Db) (u : String) (h : db.users.contains u = true) :
    existCountPositive [Json.obj [("EXIST_COUNT", Json.num (dbCountUser db u))]] = true := by
  have hpos := dbCountUser_pos db u h
  simp [existCountPositive]
  omega

theorem existCountPositive_of_not_contains (db : Db) (u : String) (h : db.users.contains u = false) :
    existCountPositive [Json.obj [("EXIST_COUNT", Json.num (dbCountUser db u))]] = false := by
  have hz := dbCountUser_zero db u h
  simp [existCountPositive, hz]

theorem execSql_createUser_ok (c : Conn) (u pw : String)
    (hf : c.faults.stmtError (Sql.createUser u pw) = none)
    (hro : c.sess.readOnly = false)
    (hex : c.sess.current.users.contains u = false) :
    execSql c (Sql.createUser u pw) { autoCommit := true } =
      (Except.ok { rows := [], rowsAffected := none },
       { c with
          sess := { committed := { c.sess.current with users := c.sess.current.users ++ [u] },
                    current := { c.sess.current with users := c.sess.current.users ++ [u] },
                    readOnly := c.sess.readOnly },
          trace := c.trace ++ [{ sql := Sql.createUser u pw, autoCommit := true, maxRows := 0 }] }) := by
  obtain ⟨⟨com, cur, ro⟩, su, f, tr⟩ := c
  simp only at hf hro hex
  subst hro
  have hm : u ∉ cur.users := by simpa using hex
  simp [execSql, hf, hm, maybeCommit, modifyCurrent]

theorem execSql_alterUser_ok (c : Conn) (u ts tts : String)
    (hf : c.faults.stmtError (Sql.alterUser u ts tts) = none)
    (hro : c.sess.readOnly = false)
    (hu : c.sess.current.users.contains u = true)
    (hcc : c.sess.committed = c.sess.current) :
    execSql c (Sql.alterUser u ts tts) { autoCommit := true } =
      (Except.ok { rows := [], rowsAffected := none },
       { c with trace := c.trace ++ [{ sql := Sql.alterUser u ts tts, autoCommit := true, maxRows := 0 }] }) := by
  obtain ⟨⟨com, cur, ro⟩, su, f, tr⟩ := c
  simp only at hf hro hu hcc
  subst hro hcc
  have hm : u ∈ com.users := by simpa using hu
  simp [execSql, hf, hm, maybeCommit]

theorem contains_append_self (l : List String) (u : String) :
    (l ++ [u]).contains u = true := by
  simp

theorem createUserInner_exists (c : Conn) (U pw ts tts : String)
    (hchk : c.faults.stmtError (Sql.countUser U) = none)
    (hex : c.sess.current.users.contains U = true) :
    createUserInner U pw ts tts c
      = (Except.ok (errJsonEnvelope (alreadyExistsPayload U)),
         { c with trace := c.trace ++ [{ sql := Sql.countUser U, autoCommit := false, maxRows := 0 }] }) := by
  have hcount := execSql_countUser c U hchk
  have hpos := existCountPositive_of_contains c.sess.current U hex
  simp [createUserInner, hcount, hpos]

theorem createUserInner_new (c : Conn) (U pw ts tts : String)
    (hchk : c.faults.stmtError (Sql.countUser U) = none)
    (hcr : c.faults.stmtError (Sql.createUser U pw) = none)
    (hal : c.faults.stmtError (Sql.alterUser U ts tts) = none)
    (hro : c.sess.readOnly = false)
    (hex : c.sess.current.users.contains U = false) :
    createUserInner U pw ts tts c
      = (Except.ok (okEnvelope (createdPayload U)),
         { c with
            sess := { committed := { c.sess.current with users := c.sess.current.users ++ [U] },
                      current := { c.sess.current with users := c.sess.current.users ++ [U] },
                      readOnly := c.sess.readOnly },
            trace := c.trace ++
              [{ sql := Sql.countUser U, autoCommit := false, maxRows := 0 },
               { sql := Sql.createUser U pw, autoCommit := true, maxRows := 0 },
               { sql := Sql.alterUser U ts tts, autoCommit := true, maxRows := 0 }] }) := by
  obtain ⟨⟨com, cur, ro⟩, su, f, tr⟩ := c
  simp only at hchk hcr hal hro hex
  subst hro
  have h1 := execSql_countUser ⟨⟨com, cur, false⟩, su, f, tr⟩ U hchk
  have hneg := existCountPositive_of_not_contains cur U hex
  have h2 := execSql_createUser_ok
    ⟨⟨com, cur, false⟩, su, f, tr ++ [{ sql := Sql.countUser U, autoCommit := false, maxRows := 0 }]⟩
    U pw hcr rfl hex
  have h3 := execSql_alterUser_ok
    ⟨⟨{ cur with users := cur.users ++ [U] }, { cur with users := cur.users ++ [U] }, false⟩, su, f,
      tr ++ [{ sql := Sql.countUser U, autoCommit := false, maxRows := 0 },
             { sql := Sql.createUser U pw, autoCommit := true, maxRows := 0 }]⟩
    U ts tts hal rfl (contains_append_self _ _) rfl
  simp only at h1 h2 h3
  simp [createUserInner, h1, h2, h3, hneg]

/-- Claim C5: when create_user's precondition check finds the username
already exists, the handler returns the already-exists error Envelope
(isError true) and its trace contains only the dba_users lookup — no
CREATE USER or ALTER USER statement; in particular, a second create_user
call with the same username (run against the database state left by the
first call) issues no CREATE/ALTER DDL. -/
theorem claim_C5_already_exists_short_circuit (env : Env) (args : CallArgs) (u : String)
    (hU : args.username = some u) :
    (env.faults.acquireFails = none →
     env.faults.stmtError (Sql.countUser (toUpperCase u)) = none →
     env.db.users.contains (toUpperCase u) = true →
       (callTool "create_user" args env).result
         = Except.ok (errJsonEnvelope (alreadyExistsPayload (toUpperCase u)))
       ∧ (callTool "create_user" args env).trace.map (fun cl => cl.sql)
         = [Sql.countUser (toUpperCase u)])
    ∧ (env.faults = Faults.benign →
        (callTool "create_user" args
            { env with db := (callTool "create_user" args env).finalDb }).trace.filter
          (fun cl => isCreateOrAlter cl.sql) = []) := by
  have hred : ∀ env' : Env, callTool "create_user" args env'
      = withConnection env' (createUserBody (toUpperCase u) (args.password.getD "undefined")
          (strOrDefault args.tablespace "USERS") (strOrDefault args.tempTablespace "TEMP")) := by
    intro env'
    simp [callTool, hU]
  constructor
  · intro hacq hchk hex
    rw [hred, withConnection_acquireOk _ _ hacq]
    have hin := createUserInner_exists (initConn env) (toUpperCase u) (args.password.getD "undefined")
      (strOrDefault args.tablespace "USERS") (strOrDefault args.tempTablespace "TEMP") hchk hex
    simp only [initConn, List.nil_append] at hin
    simp [createUserBody, hin, initConn]
  · intro hb
    obtain ⟨usr, db, flt⟩ := env
    simp only at hb
    subst hb
    simp only [hred]
    cases hex : db.users.contains (toUpperCase u) with
    | true =>
        have hin := createUserInner_exists (initConn ⟨usr, db, Faults.benign⟩) (toUpperCase u)
          (args.password.getD "undefined") (strOrDefault args.tablespace "USERS")
          (strOrDefault args.tempTablespace "TEMP") rfl hex
        simp only [initConn, Faults.benign, List.nil_append] at hin
        simp [withConnection, createUserBody, hin, initConn, Faults.benign, isCreateOrAlter]
    | false =>
        have hin1 := createUserInner_new (initConn ⟨usr, db, Faults.benign⟩) (toUpperCase u)
          (args.password.getD "undefined") (strOrDefault args.tablespace "USERS")
          (strOrDefault args.tempTablespace "TEMP") rfl rfl rfl rfl hex
        have hex2 : ({ db with users := db.users ++ [toUpperCase u] } : Db).users.contains (toUpperCase u) = true :=
          contains_append_self _ _
        have hin2 := createUserInner_exists
          (initConn ⟨usr, { db with users := db.users ++ [toUpperCase u] }, Faults.benign⟩) (toUpperCase u)
          (args.password.getD "undefined") (strOrDefault args.tablespace "USERS")
          (strOrDefault args.tempTablespace "TEMP") rfl hex2
        simp only [initConn, Faults.benign, List.nil_append] at hin1 hin2
        simp [withConnection, createUserBody, hin1, hin2, initConn, Faults.benign, isCreateOrAlter]

/-- Witness for claim C5 at an existing username. -/
theorem claim_C5_witness :
    ((callTool "create_user" { username := some "sys", password := some "pw" } envW).result
        = Except.ok (errJsonEnvelope (alreadyExistsPayload (toUpperCase "sys")))
      ∧ (callTool "create_user" { username := some "sys", password := some "pw" } envW).trace.map
          (fun cl => cl.sql)
        = [Sql.countUser (toUpperCase "sys")])
    ∧ (callTool "create_user" { username := some "sys", password := some "pw" }
          { envW with
              db := (callTool "create_user" { username := some "sys", password := some "pw" } envW).finalDb }).trace.filter
        (fun cl => isCreateOrAlter cl.sql) = [] := by
  have t := claim_C5_already_exists_short_circuit envW
    { username := some "sys", password := some "pw" } "sys" rfl
  exact ⟨t.1 rfl rfl (by decide), t.2 rfl⟩

theorem execSql_setTransaction_ok (c : Conn)
    (h : c.faults.stmtError Sql.setTransactionReadOnly = none) :
    execSql c Sql.setTransactionReadOnly {} =
      (Except.ok { rows := [], rowsAffected := none },
       { c with sess := { c.sess with readOnly := true },
                trace := c.trace ++ [{ sql := Sql.setTransactionReadOnly, autoCommit := false, maxRows := 0 }] }) := by
  simp [execSql, h]

theorem execSql_selectOwner (c : Conn) (t : String)
    (h : c.faults.stmtError (Sql.selectOwner t) = none) :
    execSql c (Sql.selectOwner t) {} =
      (Except.ok { rows := (c.sess.current.tables.filter (fun ti => ti.name == t)).map
                      (fun ti => Json.obj [("OWNER", Json.str ti.owner)]),
                   rowsAffected := none },
       { c with trace := c.trace ++ [{ sql := Sql.selectOwner t, autoCommit := false, maxRows := 0 }] }) := by
  simp [execSql, h, applyMaxRows]

theorem execSql_selectRows_found (c : Conn) (qual : Option String) (t : String) (lim : Int) (ti : OTable)
    (h : c.faults.stmtError (Sql.selectRows qual t lim) = none)
    (hfind : c.sess.current.tables.find?
        (fun x => x.owner == qual.getD c.sessionUser && x.name == t) = some ti) :
    execSql c (Sql.selectRows qual t lim) { maxRows := lim } =
      (Except.ok { rows := applyMaxRows { maxRows := lim } (rownumTake lim ti.rows), rowsAffected := none },
       { c with trace := c.trace ++ [{ sql := Sql.selectRows qual t lim, autoCommit := false, maxRows := lim }] }) := by
  simp [execSql, h, hfind]

theorem execSql_rollback_ok (c : Conn)
    (h : c.faults.stmtError Sql.rollback = none) :
    execSql c Sql.rollback {} =
      (Except.ok { rows := [], rowsAffected := none },
       { c with sess := { c.sess with current := c.sess.committed, readOnly := false },
                trace := c.trace ++ [{ sql := Sql.rollback, autoCommit := false, maxRows := 0 }] }) := by
  simp [execSql, h]

theorem find_first_name_owner (tables : List OTable) (tn : String) (ti : OTable) (rest : List OTable)
    (h : tables.filter (fun x => x.name == tn) = ti :: rest) :
    ∃ tj, tables.find? (fun x => x.owner == ti.owner && x.name == tn) = some tj := by
  induction tables generalizing ti rest with
  | nil => simp at h
  | cons a as ih =>
      by_cases ha : a.name == tn
      · rw [List.filter_cons_of_pos (by simpa using ha)] at h
        obtain ⟨rfl, _⟩ : a = ti ∧ as.filter (fun x => x.name == tn) = rest := by
          constructor
          · exact (List.cons.injEq _ _ _ _ ▸ h).1
          · exact (List.cons.injEq _ _ _ _ ▸ h).2
        refine ⟨a, ?_⟩
        rw [List.find?_cons_of_pos]
        simp [ha]
      · rw [List.filter_cons_of_neg (by simpa using ha)] at h
        obtain ⟨tj, htj⟩ := ih ti rest h
        refine ⟨tj, ?_⟩
        rw [List.find?_cons_of_neg, htj]
        simp_all

theorem tableData_rows_le (lim : Int) (rows : List Json) :
    (applyMaxRows { maxRows := lim } (rownumTake lim rows)).length ≤ lim.toNat := by
  unfold applyMaxRows rownumTake
  split <;> simp_all [List.length_take]

/-- Claim C7 (amended): get_table_data on an existing table returns a
success Envelope whose data never exceeds the effective limit — the
caller-supplied limit when nonzero, 10 when the limit is omitted or zero
(JavaScript `limit || 10`) — and the data query is owner-qualified
exactly when the table's owner differs from the uppercased connecting
user.  (The claim as stated, with the cap being the caller-supplied
limit itself, is refuted by the accompanying counterexample at limit 0.) -/
theorem claim_C7_amended (env : Env) (args : CallArgs) (tn : String)
    (hT : args.tableName = some tn)
    (hb : env.faults = Faults.benign)
    (hex : 0 < (env.db.tables.filter (fun ti => ti.name == toUpperCase tn)).length) :
    ∃ owner data,
      (callTool "get_table_data" args env).result
        = Except.ok (okEnvelope (tableDataPayload (toUpperCase tn) owner data))
      ∧ data.length ≤ (limitOrDefault args.limit).toNat
      ∧ (callTool "get_table_data" args env).trace.map (fun cl => cl.sql)
          = [Sql.setTransactionReadOnly, Sql.selectOwner (toUpperCase tn),
             Sql.selectRows (if owner == toUpperCase env.user then none else some owner)
               (toUpperCase tn) (limitOrDefault args.limit),
             Sql.rollback] := by
  have hred : callTool "get_table_data" args env
      = withConnection env (getTableDataBody args.tableName (limitOrDefault args.limit)) := by
    simp [callTool]
  obtain ⟨usr, db, flt⟩ := env
  simp only at hb hex
  subst hb
  obtain ⟨ti, rest, hfil⟩ : ∃ ti rest, db.tables.filter (fun x => x.name == toUpperCase tn) = ti :: rest := by
    rcases hcase : db.tables.filter (fun x => x.name == toUpperCase tn) with _ | ⟨ti, rest⟩
    · rw [hcase] at hex
      simp at hex
    · exact ⟨ti, rest, hcase⟩
  obtain ⟨tj, hfind⟩ := find_first_name_owner db.tables (toUpperCase tn) ti rest hfil
  rw [hred, hT, withConnection_acquireOk _ _ rfl]
  have h1 := execSql_setTransaction_ok
    (⟨⟨db, db, false⟩, toUpperCase usr, Faults.benign, []⟩ : Conn) rfl
  simp only [Faults.benign] at h1
  have h2 := execSql_selectOwner
    (⟨⟨db, db, true⟩, toUpperCase usr,
      ({ acquireFails := none, closeFails := none, stmtError := fun _ => none } : Faults),
      [{ sql := Sql.setTransactionReadOnly, autoCommit := false, maxRows := 0 }]⟩ : Conn)
    (toUpperCase tn) rfl
  by_cases hq : ti.owner == toUpperCase usr
  · have heq : ti.owner = toUpperCase usr := by simpa using hq
    have h3 := execSql_selectRows_found
      (⟨⟨db, db, true⟩, toUpperCase usr,
        ({ acquireFails := none, closeFails := none, stmtError := fun _ => none } : Faults),
        [{ sql := Sql.setTransactionReadOnly, autoCommit := false, maxRows := 0 },
         { sql := Sql.selectOwner (toUpperCase tn), autoCommit := false, maxRows := 0 }]⟩ : Conn)
      none (toUpperCase tn) (limitOrDefault args.limit) tj rfl
      (by simpa [← heq] using hfind)
    have h4 := execSql_rollback_ok
      (⟨⟨db, db, true⟩, toUpperCase usr,
        ({ acquireFails := none, closeFails := none, stmtError := fun _ => none } : Faults),
        [{ sql := Sql.setTransactionReadOnly, autoCommit := false, maxRows := 0 },
         { sql := Sql.selectOwner (toUpperCase tn), autoCommit := false, maxRows := 0 },
         { sql := Sql.selectRows none (toUpperCase tn) (limitOrDefault args.limit), autoCommit := false,
           maxRows := limitOrDefault args.limit }]⟩ : Conn) rfl
    refine ⟨ti.owner, applyMaxRows { maxRows := limitOrDefault args.limit }
      (rownumTake (limitOrDefault args.limit) tj.rows), ?_, tableData_rows_le _ _, ?_⟩ <;>
      simp [withConnection, getTableDataBody, getTableDataInner, initConn, Faults.benign,
        h1, h2, h3, h4, hfil, firstOwner, applyMaxRows, heq, tableDataPayload]
  · have h3 := execSql_selectRows_found
      (⟨⟨db, db, true⟩, toUpperCase usr,
        ({ acquireFails := none, closeFails := none, stmtError := fun _ => none } : Faults),
        [{ sql := Sql.setTransactionReadOnly, autoCommit := false, maxRows := 0 },
         { sql := Sql.selectOwner (toUpperCase tn), autoCommit := false, maxRows := 0 }]⟩ : Conn)
      (some ti.owner) (toUpperCase tn) (limitOrDefault args.limit) tj rfl
      (by simpa using hfind)
    have h4 := execSql_rollback_ok
      (⟨⟨db, db, true⟩, toUpperCase usr,
        ({ acquireFails := none, closeFails := none, stmtError := fun _ => none } : Faults),
        [{ sql := Sql.setTransactionReadOnly, autoCommit := false, maxRows := 0 },
         { sql := Sql.selectOwner (toUpperCase tn), autoCommit := false, maxRows := 0 },
         { sql := Sql.selectRows (some ti.owner) (toUpperCase tn) (limitOrDefault args.limit),
           autoCommit := false, maxRows := limitOrDefault args.limit }]⟩ : Conn) rfl
    have hne : ¬ ti.owner = toUpperCase usr := by simpa using hq
    refine ⟨ti.owner, applyMaxRows { maxRows := limitOrDefault args.limit }
      (rownumTake (limitOrDefault args.limit) tj.rows), ?_, tableData_rows_le _ _, ?_⟩ <;>
      simp [withConnection, getTableDataBody, getTableDataInner, initConn, Faults.benign,
        h1, h2, h3, h4, hfil, firstOwner, applyMaxRows, hne, tableDataPayload]

/-- Counterexample to claim C7 as stated: with caller-supplied limit 0 the
handler replaces the falsy limit by 10 and returns one row — more than
the caller-supplied limit — for a one-row table. -/
theorem claim_C7_counterexample :
    ({ tableName := some "T", limit := some 0 } : CallArgs).limit = some 0
    ∧ (callTool "get_table_data" { tableName := some "T", limit := some 0 } envW).result
      = Except.ok (okEnvelope (tableDataPayload "T" "SCOTT" [Json.null])) := ⟨rfl, rfl⟩

/-- Witness for claim C7 (amended) at limit 0 on a one-row table. -/
theorem claim_C7_witness :
    ∃ owner data,
      (callTool "get_table_data" { tableName := some "T", limit := some 0 } envW).result
        = Except.ok (okEnvelope (tableDataPayload (toUpperCase "T") owner data))
      ∧ data.length ≤ (limitOrDefault ({ tableName := some "T", limit := some 0 } : CallArgs).limit).toNat
      ∧ (callTool "get_table_data" { tableName := some "T", limit := some 0 } envW).trace.map
          (fun cl => cl.sql)
          = [Sql.setTransactionReadOnly, Sql.selectOwner (toUpperCase "T"),
             Sql.selectRows (if owner == toUpperCase envW.user then none else some owner)
               (toUpperCase "T") (limitOrDefault ({ tableName := some "T", limit := some 0 } : CallArgs).limit),
             Sql.rollback] :=
  claim_C7_amended envW { tableName := some "T", limit := some 0 } "T" rfl rfl (by decide)

/-- Witness for claim C10: usernames "sys" and "Sys" behave
identically. -/
theorem claim_C10_witness :
    callTool "check_user_exists" { ({} : CallArgs) with username := some "sys" } envW
      = callTool "check_user_exists" { ({} : CallArgs) with username := some "Sys" } envW :=
  claim_C10_case_insensitive "check_user_exists" {} envW "sys" "Sys" (Or.inl rfl) rfl

